import Mathlib

/-!
Verification of the two-way log merge in `src/log_merge.py`.

The module as committed does not compile: line 17 is a lone tab and line 18
is a tab-indented `@property` inside the space-indented body of `LogRecord`,
which CPython's tokenizer rejects with `TabError: inconsistent use of tabs
and spaces in indentation` at line 18. Importing the module therefore fails
before any statement executes, so no function of the module ever runs on any
input. The development models both levels.

Module level: `logMergeSrcPrefix` embeds lines 1 to 18 of the file byte for
byte, `checkIndentLines` is the tokenizer's indentation automaton (columns
with tab stops of eight together with the alternative one-per-character
width, an indent stack, and TabError where the two widths disagree in
direction), and `log_merge_import`, `runMerge` and `runGetRecord` give the
program's actual behavior: every invocation fails with TabError at line 18.

Statement level: the meaning each class and def statement would have had the
module compiled — what the spec was written about.

* `LogRecord` is the dataclass of lines 12-30 (three string fields; the
  parsed timestamp is derived, never stored).
* `parseTimestamp` is `datetime.strptime(ts, '%Y-%m-%d %H:%M:%S')` (line 20)
  via the regex `_strptime` compiles for this format: Unicode `\d` atoms and
  the `\s+` that the format's space becomes, ASCII literals and classes in
  the directive alternations, full backtracking, whole-string consumption,
  `int()` group conversion, then the `datetime` constructor's range checks;
  `none` exactly where CPython raises `ValueError`.
* `recordLt` is `LogRecord.__lt__` on two live records (line 25), parsing
  `self` then `other`; the `None`-sentinel short circuits of
  `__lt__`/`__gt__` (lines 23-24, 28-29) are modelled at their use sites in
  the merge loop.
* `mergeLoop` (via the fuel-indexed `mergeFuel`, a standard embedding of the
  `while` loop; the fuel passed by the wrapper is exactly the loop's trip
  count) is the loop of `_get_output_record` (lines 102-114), and
  `getOutputRecords` its entry (lines 99-100) over the two record sequences,
  as in the spec's MergeStream contract.
* `PathInfo`, `check_path_to_log`, `Line`, `parseLine`, `get_record` and
  `get_output_record` are the file-level pipeline: path validation
  (lines 66-71), one JSON line (`json.loads` of an object with string
  values, `Line.badJson` standing for a line on which `json.loads` raises),
  `LogRecord(**d)` keyword checking, and the generator composition of
  lines 87-114 in its evaluation order.

Errors are the Python exception classes involved, collected in `PyErr`.
-/

namespace LogMerge

/-- Models the dataclass `LogRecord` (src/log_merge.py lines 12-16): three
string fields; the timestamp stays a string and is only parsed on demand. -/
structure LogRecord where
  log_level : String
  timestamp : String
  message : String
deriving DecidableEq

/-- Python whitespace characters (CPython's Py_UNICODE_ISSPACE table),
exactly what a str-pattern `\s` matches: `_strptime` replaces the space of
`%Y-%m-%d %H:%M:%S` with `\s+`. -/
def isPySpace (c : Char) : Bool :=
  let n := c.toNat
  (decide (9 <= n) && decide (n <= 13)) || (decide (28 <= n) && decide (n <= 31)) ||
  n == 32 || n == 133 || n == 160 || n == 5760 ||
  (decide (8192 <= n) && decide (n <= 8202)) || n == 8232 || n == 8233 ||
  n == 8239 || n == 8287 || n == 12288

/-- Code points of the zero digit of every run of Unicode decimal digits
(category Nd); each run is ten consecutive code points. A str-pattern `\d`
matches exactly these characters, and `int()` maps each to its decimal
value. Transcribed from CPython 3.11 unicodedata. -/
def ndZeros : List Nat :=
  [48, 1632, 1776, 1984, 2406, 2534, 2662, 2790, 2918, 3046, 3174, 3302,
   3430, 3558, 3664, 3792, 3872, 4160, 4240, 6112, 6160, 6470, 6608, 6784,
   6800, 6992, 7088, 7232, 7248, 42528, 43216, 43264, 43472, 43504, 43600,
   44016, 65296, 66720, 68912, 69734, 69872, 69942, 70096, 70384, 70736,
   70864, 71248, 71360, 71472, 71904, 72016, 72784, 73040, 73120, 92768,
   92864, 93008, 120782, 120792, 120802, 120812, 120822, 123200, 123632,
   125264, 130032]

/-- Zero point of the Nd digit run containing code point `n`, if any. -/
def ndZeroOf (n : Nat) : Option Nat :=
  ndZeros.find? (fun z => decide (z <= n) && decide (n <= z + 9))

/-- Match one `\d` atom: any Unicode decimal digit, yielding the decimal
value that `int()` assigns it. -/
def chUni : List Char → Option (Nat × List Char)
  | c :: r =>
    (match ndZeroOf c.toNat with
     | some z => some (c.toNat - z, r)
     | none => none)
  | [] => none

/-- Match one character of an ASCII class of the directive regexes, between
code points `lo` and `hi`; the literals and classes of the alternations are
ASCII only, unlike the `\d` atoms. -/
def chAscii (lo hi : Nat) : List Char → Option (Nat × List Char)
  | c :: r =>
    if decide (lo <= c.toNat) && decide (c.toNat <= hi) then
      some (c.toNat - 48, r)
    else none
  | [] => none

/-- Two digit characters in sequence, combined as `int()` combines the
matched group. -/
def seq2M (m1 m2 : List Char → Option (Nat × List Char)) (cs : List Char) :
    Option (Nat × List Char) :=
  match m1 cs with
  | none => none
  | some vr =>
    match m2 vr.2 with
    | none => none
    | some vr2 => some (vr.1 * 10 + vr2.1, vr2.2)

/-- Regex alternation with backtracking: try each alternative in order, and
when the rest of the pattern (the continuation `k`) fails, fall through to
the next alternative, as the regex engine does. -/
def tryAlts (alts : List (List Char → Option (Nat × List Char)))
    (k : Nat → List Char → Option Nat) (cs : List Char) : Option Nat :=
  match alts with
  | [] => none
  | a :: rest =>
    (match a cs with
     | some vr => k vr.1 vr.2
     | none => none) <|> tryAlts rest k cs

/-- Directive regex of `%m`: `1[0-2]|0[1-9]|[1-9]`, all ASCII. -/
def dirMonth : List (List Char → Option (Nat × List Char)) :=
  [seq2M (chAscii 49 49) (chAscii 48 50), seq2M (chAscii 48 48) (chAscii 49 57),
   chAscii 49 57]

/-- Directive regex of `%d`: `3[01]|[12]\d|0[1-9]|[1-9]`; the second digit
of the `[12]\d` branch is a Unicode `\d`, the rest is ASCII. -/
def dirDay : List (List Char → Option (Nat × List Char)) :=
  [seq2M (chAscii 51 51) (chAscii 48 49), seq2M (chAscii 49 50) chUni,
   seq2M (chAscii 48 48) (chAscii 49 57), chAscii 49 57]

/-- Directive regex of `%H`: `2[0-3]|[0-1]\d|\d`. -/
def dirHour : List (List Char → Option (Nat × List Char)) :=
  [seq2M (chAscii 50 50) (chAscii 48 51), seq2M (chAscii 48 49) chUni, chUni]

/-- Directive regex of `%M`: `[0-5]\d|\d`. -/
def dirMinute : List (List Char → Option (Nat × List Char)) :=
  [seq2M (chAscii 48 53) chUni, chUni]

/-- Directive regex of `%S`: `6[0-1]|[0-5]\d|\d`; the regex admits the leap
seconds 60 and 61, which the `datetime` constructor then rejects. -/
def dirSecond : List (List Char → Option (Nat × List Char)) :=
  [seq2M (chAscii 54 54) (chAscii 48 49), seq2M (chAscii 48 53) chUni, chUni]

/-- Consume one expected literal character, as the `-` and `:` of the format
do. -/
def lit (c : Char) : List Char → Option (List Char)
  | a :: r => if a = c then some r else none
  | _ => none

/-- Drop any further whitespace after the first. -/
def skipSpaces : List Char → List Char
  | c :: r => if isPySpace c then skipSpaces r else c :: r
  | [] => []

/-- The `\s+` the format's space becomes: at least one whitespace character,
consumed greedily — exact here, because no whitespace character is a decimal
digit, so a shorter whitespace match could never let the following `%H`
match. -/
def wsSep : List Char → Option (List Char)
  | c :: r => if isPySpace c then some (skipSpaces r) else none
  | [] => none

/-- Gregorian leap-year rule used by `datetime`. -/
def isLeapYear (y : Nat) : Bool := y % 4 == 0 && (y % 100 != 0 || y % 400 == 0)

/-- Days in a month, as validated by the `datetime` constructor. -/
def daysInMonth (y mo : Nat) : Nat :=
  if mo == 2 then (if isLeapYear y then 29 else 28)
  else if mo == 4 || mo == 6 || mo == 9 || mo == 11 then 30 else 31

/-- Chronologically monotone `Nat` encoding of a parsed timestamp: since the
parsed fields are bounded (month at most 12, day at most 31, hour at most 23,
minute and second at most 59), lexicographic order on the fields, which is
how `datetime` values compare, agrees with `Nat` order on this encoding. -/
def encodeDT (y mo d h mi s : Nat) : Nat :=
  ((((y * 12 + mo) * 32 + d) * 24 + h) * 60 + mi) * 60 + s

/-- Directive regex of `%Y`: `\d\d\d\d`, four Unicode digits. -/
def year4 (cs : List Char) : Option (Nat × List Char) :=
  match chUni cs with
  | none => none
  | some r1 =>
    match chUni r1.2 with
    | none => none
    | some r2 =>
      match chUni r2.2 with
      | none => none
      | some r3 =>
        match chUni r3.2 with
        | none => none
        | some r4 => some (((r1.1 * 10 + r2.1) * 10 + r3.1) * 10 + r4.1, r4.2)

/-- Models `datetime.strptime(s, '%Y-%m-%d %H:%M:%S')` (line 20). `_strptime`
compiles the format to the anchored pattern
`(?P<Y>\d\d\d\d)-(?P<m>1[0-2]|0[1-9]|[1-9])-(?P<d>3[01]|[12]\d|0[1-9]|[1-9])\s+(?P<H>2[0-3]|[0-1]\d|\d):(?P<M>[0-5]\d|\d):(?P<S>6[0-1]|[0-5]\d|\d)`,
requires the whole string to be consumed (else it raises for unconverted
data), converts each group with `int()`, and hands the values to the
`datetime` constructor, which enforces year at least 1, day within the
month, and second at most 59. `none` exactly where `datetime.strptime`
raises `ValueError`; cross-checked against CPython 3.11 behavior, including
tab and repeated-space separators, Unicode digits in the `\d` positions,
and leap seconds. -/
def parseTimestamp (s : String) : Option Nat :=
  match year4 s.data with
  | none => none
  | some yr =>
    match lit '-' yr.2 with
    | none => none
    | some cs1 =>
      tryAlts dirMonth (fun mo cs2 =>
        match lit '-' cs2 with
        | none => none
        | some cs3 =>
          tryAlts dirDay (fun d cs4 =>
            match wsSep cs4 with
            | none => none
            | some cs5 =>
              tryAlts dirHour (fun h cs6 =>
                match lit ':' cs6 with
                | none => none
                | some cs7 =>
                  tryAlts dirMinute (fun mi cs8 =>
                    match lit ':' cs8 with
                    | none => none
                    | some cs9 =>
                      tryAlts dirSecond (fun sec cs10 =>
                        match cs10 with
                        | [] =>
                          if decide (1 <= yr.1) && decide (d <= daysInMonth yr.1 mo)
                              && decide (sec <= 59) then
                            some (encodeDT yr.1 mo d h mi sec)
                          else none
                        | _ => none) cs9) cs7) cs5) cs3) cs1

/-- The Python exception classes involved: the `TabError` (a subclass of
`IndentationError`, itself of `SyntaxError`) that compiling the module
raises at line 18, and the exceptions its statements would raise had it
compiled — builtin `FileNotFoundError` and `ValueError` from
`_check_path_to_log` (lines 67-70), `ValueError` from `strptime` (line 20),
`TypeError` from `LogRecord(**d)` with wrong keywords (line 91),
`json.JSONDecodeError` from `json.loads` (line 91), and the `RuntimeError`
that PEP 479 turns an uncaught `StopIteration` inside the generator into
(lines 99-100). The program defines no exception classes of its own. -/
inductive PyErr where
  | tabError (line : Nat)
  | indentationError (line : Nat)
  | fileNotFound (msg : String)
  | valueError (msg : String)
  | typeError
  | jsonDecodeError
  | runtimeStopIteration
deriving DecidableEq

/-- Message of the `ValueError` that `strptime` raises on a format
mismatch. -/
def strptimeMsg : String := "time data does not match format %Y-%m-%d %H:%M:%S"

/-- Models `log_a_record < log_b_record` when both records are live
(`LogRecord.__lt__`, line 25): parse `self`'s timestamp, then `other`'s
(each a fresh `strptime` call via the `__timestamp` property), raising
`ValueError` if either fails, else compare chronologically. -/
def recordLt (a b : LogRecord) : Except PyErr Bool :=
  match parseTimestamp a.timestamp with
  | none => .error (.valueError strptimeMsg)
  | some ta =>
    match parseTimestamp b.timestamp with
    | none => .error (.valueError strptimeMsg)
    | some tb => .ok (decide (ta < tb))

/-- Size of the lookahead slot: one pending record or an exhausted `None`
sentinel. -/
def osize : Option LogRecord → Nat
  | none => 0
  | some _ => 1

/-- Fuel-indexed embedding of the `while` loop of `_get_output_record`
(lines 102-114). State: per side, the lookahead (`None` sentinel once
exhausted, line 108/114) plus the records its generator has yet to yield.
One iteration: evaluate `log_a_record < log_b_record` — `__lt__` against
`None` is `True` and the reflected `__gt__` against `None` is `False`, both
without parsing any timestamp — then yield the chosen record and advance its
side, `StopIteration` becoming the `None` sentinel. The loop exits when both
lookaheads are `None`; exhausting the fuel models the same exit and is never
reached when the fuel is at least the trip count. -/
def mergeFuel : Nat → Option LogRecord → List LogRecord → Option LogRecord →
    List LogRecord → Except PyErr (List LogRecord)
  | 0, _, _, _, _ => .ok []
  | _ + 1, none, _, none, _ => .ok []
  | n + 1, some a, as, none, bs =>
    (match as with
     | [] => mergeFuel n none [] none bs
     | x :: rest => mergeFuel n (some x) rest none bs).map (fun out => a :: out)
  | n + 1, none, as, some b, bs =>
    (match bs with
     | [] => mergeFuel n none as none []
     | y :: ys => mergeFuel n none as (some y) ys).map (fun out => b :: out)
  | n + 1, some a, as, some b, bs =>
    match recordLt a b with
    | .error e => .error e
    | .ok true =>
      (match as with
       | [] => mergeFuel n none [] (some b) bs
       | x :: rest => mergeFuel n (some x) rest (some b) bs).map (fun out => a :: out)
    | .ok false =>
      (match bs with
       | [] => mergeFuel n (some a) as none []
       | y :: ys => mergeFuel n (some a) as (some y) ys).map (fun out => b :: out)

/-- The merge loop of `_get_output_record` run to completion: the supplied
fuel is exactly the number of records still to emit, which is exactly the
number of iterations the Python loop performs from this state. -/
def mergeLoop (a? : Option LogRecord) (as : List LogRecord) (b? : Option LogRecord)
    (bs : List LogRecord) : Except PyErr (List LogRecord) :=
  mergeFuel (osize a? + as.length + osize b? + bs.length) a? as b? bs

/-- Models `_get_output_record` (lines 94-114) over the two record sequences
its readers would yield (the spec's MergeStream contract): the two initial
`next` calls of lines 99-100 are outside any `try`, so an empty sequence
raises `StopIteration` there, which PEP 479 converts to `RuntimeError`;
otherwise the loop runs with both lookaheads filled. -/
def getOutputRecords (la lb : List LogRecord) : Except PyErr (List LogRecord) :=
  match la, lb with
  | [], _ => .error .runtimeStopIteration
  | _ :: _, [] => .error .runtimeStopIteration
  | a :: as, b :: bs => mergeLoop (some a) as (some b) bs

/-- Comparison used to state sortedness: both timestamps parse and the
first is chronologically no later than the second. -/
def recLe (a b : LogRecord) : Bool :=
  match parseTimestamp a.timestamp, parseTimestamp b.timestamp with
  | some ta, some tb => decide (ta ≤ tb)
  | _, _ => false

/-- Propositional form of `recLe`. -/
abbrev tsLE (a b : LogRecord) : Prop := recLe a b = true

instance : DecidableRel tsLE := fun a b => inferInstanceAs (Decidable (recLe a b = true))

/-- Every record in the list has a parseable timestamp. -/
def allParse (l : List LogRecord) : Prop :=
  ∀ r ∈ l, (parseTimestamp r.timestamp).isSome = true

instance (l : List LogRecord) : Decidable (allParse l) :=
  inferInstanceAs (Decidable (∀ r ∈ l, (parseTimestamp r.timestamp).isSome = true))

/-- Path facts an input path can have, as queried by `_check_path_to_log`:
`Path.exists()`, `Path.is_file()`, and the final component's name from which
`Path.suffix` is computed. -/
structure PathInfo where
  path_exists : Bool
  is_file : Bool
  name : String
deriving DecidableEq

/-- Index of the last `.` in the name, if any (Python `str.rfind`). -/
def lastDotIdx : List Char → Nat → Option Nat → Option Nat
  | [], _, acc => acc
  | c :: r, i, acc => lastDotIdx r (i + 1) (if c = '.' then some i else acc)

/-- Models `pathlib.PurePath.suffix`: with `i = name.rfind('.')`, the result
is `name[i:]` when `0 < i < len(name) - 1` and the empty string otherwise. -/
def pysuffix (s : String) : String :=
  match lastDotIdx s.data 0 none with
  | none => ""
  | some i =>
    if decide (0 < i) && decide (i < s.data.length - 1) then
      String.mk (s.data.drop i)
    else ""

/-- Models `str.lower()` as used on the suffix: ASCII case folding, mapped
over the characters. -/
def lowerStr (s : String) : String := String.mk (s.data.map Char.toLower)

/-- Models `_check_path_to_log` (lines 66-71): a missing or non-regular path
raises `FileNotFoundError('Wrong file path.')`; a suffix whose lowercase form
is not `.jsonl` raises `ValueError('Log file type is incorrect.')`; otherwise
return `True`. -/
def check_path_to_log (p : PathInfo) : Except PyErr Bool :=
  if !(p.path_exists && p.is_file) then .error (.fileNotFound "Wrong file path.")
  else if lowerStr (pysuffix p.name) ≠ ".jsonl" then
    .error (.valueError "Log file type is incorrect.")
  else .ok true

/-- One line of an input file after `json.loads` (line 91): either a JSON
object with string values, or a line on which `json.loads` raises
`json.JSONDecodeError`. -/
inductive Line where
  | obj (fields : List (String × String))
  | badJson
deriving DecidableEq

/-- Value bound to a key in the object, later bindings overwriting earlier
ones as in a Python dict built by `json.loads`. -/
def lookupLast (k : String) : List (String × String) → Option String
  | [] => none
  | kv :: rest =>
    match lookupLast k rest with
    | some v => some v
    | none => if kv.1 = k then some kv.2 else none

/-- Every key of the object is one of the three `LogRecord` field names; an
unexpected keyword makes `LogRecord(**d)` raise `TypeError`. -/
def fieldsOk (fields : List (String × String)) : Bool :=
  fields.all (fun kv => kv.1 == "log_level" || kv.1 == "timestamp" || kv.1 == "message")

/-- Models `LogRecord(**json.loads(row))` keyword binding: `TypeError` on an
unexpected or missing keyword, otherwise the record is built; the dataclass
performs no validation of the field values, in particular the timestamp
string is not parsed here. -/
def mkLogRecord (fields : List (String × String)) : Except PyErr LogRecord :=
  if fieldsOk fields then
    match lookupLast "log_level" fields, lookupLast "timestamp" fields,
        lookupLast "message" fields with
    | some ll, some ts, some m => .ok ⟨ll, ts, m⟩
    | _, _, _ => .error .typeError
  else .error .typeError

/-- Turn one line into a record as the body of `_get_record` does
(line 91). -/
def parseLine : Line → Except PyErr LogRecord
  | .badJson => .error .jsonDecodeError
  | .obj fields => mkLogRecord fields

/-- One input file: its path facts and its lines. -/
structure LogFile where
  info : PathInfo
  content : List Line
deriving DecidableEq

/-- Records of all lines in order, stopping at the first line whose parse
raises. -/
def readAllLines : List Line → Except PyErr (List LogRecord)
  | [] => .ok []
  | l :: rest =>
    match parseLine l with
    | .error e => .error e
    | .ok r => (readAllLines rest).map (fun rs => r :: rs)

/-- Models draining the generator `_get_record(log_path)` (lines 87-91): the
path check runs at the first `next`, then each line is parsed in turn; any
raised exception propagates and ends the iteration. -/
def get_record (f : LogFile) : Except PyErr (List LogRecord) :=
  match check_path_to_log f.info with
  | .error e => .error e
  | .ok _ => readAllLines f.content

/-- File-level merge loop: as `mergeFuel`, but each advance performs the
reader's work on the next line (`json.loads` plus `LogRecord(**d)`), whose
exceptions propagate out of the loop since its `try` blocks catch only
`StopIteration`. -/
def mergeFuelF : Nat → Option LogRecord → List Line → Option LogRecord →
    List Line → Except PyErr (List LogRecord)
  | 0, _, _, _, _ => .ok []
  | _ + 1, none, _, none, _ => .ok []
  | n + 1, some a, as, none, bs =>
    (match as with
     | [] => mergeFuelF n none [] none bs
     | l :: rest =>
       match parseLine l with
       | .error e => .error e
       | .ok r => mergeFuelF n (some r) rest none bs).map (fun out => a :: out)
  | n + 1, none, as, some b, bs =>
    (match bs with
     | [] => mergeFuelF n none as none []
     | l :: rest =>
       match parseLine l with
       | .error e => .error e
       | .ok r => mergeFuelF n none as (some r) rest).map (fun out => b :: out)
  | n + 1, some a, as, some b, bs =>
    match recordLt a b with
    | .error e => .error e
    | .ok true =>
      (match as with
       | [] => mergeFuelF n none [] (some b) bs
       | l :: rest =>
         match parseLine l with
         | .error e => .error e
         | .ok r => mergeFuelF n (some r) rest (some b) bs).map (fun out => a :: out)
    | .ok false =>
      (match bs with
       | [] => mergeFuelF n (some a) as none []
       | l :: rest =>
         match parseLine l with
         | .error e => .error e
         | .ok r => mergeFuelF n (some a) as (some r) rest).map (fun out => b :: out)

/-- File-level merge loop run to completion: like `mergeLoop`, the wrapper
supplies exactly the remaining trip count as fuel. -/
def mergeLoopF (a? : Option LogRecord) (as : List Line) (b? : Option LogRecord)
    (bs : List Line) : Except PyErr (List LogRecord) :=
  mergeFuelF (osize a? + as.length + osize b? + bs.length) a? as b? bs

/-- Models `_get_output_record(log_a_path, log_b_path)` (lines 94-114) in its
evaluation order: line 99 first advances A's generator — A's path check, then
A's first line — and only then does line 100 touch B at all: B's path check
and B's first line. An empty file raises `StopIteration` at these initial
`next` calls, uncaught, hence `RuntimeError` by PEP 479. Then the loop
runs. -/
def get_output_record (fa fb : LogFile) : Except PyErr (List LogRecord) :=
  match check_path_to_log fa.info with
  | .error e => .error e
  | .ok _ =>
    match fa.content with
    | [] => .error .runtimeStopIteration
    | la :: ra =>
      match parseLine la with
      | .error e => .error e
      | .ok a =>
        match check_path_to_log fb.info with
        | .error e => .error e
        | .ok _ =>
          match fb.content with
          | [] => .error .runtimeStopIteration
          | lb :: rb =>
            match parseLine lb with
            | .error e => .error e
            | .ok b => mergeLoopF (some a) ra (some b) rb

/-- Leading run of spaces and tabs of a source line. -/
def wsPrefix (cs : List Char) : List Char := cs.takeWhile (fun c => c = ' ' || c = '\t')

/-- Rest of a source line after its indentation. -/
def restOfLine (cs : List Char) : List Char := cs.dropWhile (fun c => c = ' ' || c = '\t')

/-- Lines that are blank or comment-only are skipped by the tokenizer's
indentation bookkeeping. -/
def tokBlank (cs : List Char) : Bool :=
  (restOfLine cs).isEmpty || (restOfLine cs).head? == some '#'

/-- CPython's two widths of an indentation prefix: the column with tab stops
of eight, and the alternative column where every character counts one. An
indentation change is accepted only when both widths agree in direction. -/
def tokCols (cs : List Char) : Nat × Nat :=
  cs.foldl
    (fun p c => if c = '\t' then ((p.1 / 8 + 1) * 8, p.2 + 1) else (p.1 + 1, p.2 + 1))
    (0, 0)

/-- Dedent handling of the tokenizer: pop levels while the new column is
smaller, never popping the outermost level; an unmatched column raises
IndentationError, and a matched column whose alternative width differs
raises TabError. -/
def popIndents (lineNo : Nat) (ca : Nat × Nat) :
    List (Nat × Nat) → Except PyErr (List (Nat × Nat))
  | [] => .error (.indentationError lineNo)
  | top :: rest =>
    if decide (ca.1 < top.1) then
      (match rest with
       | [] => .error (.indentationError lineNo)
       | r :: rs => popIndents lineNo ca (r :: rs))
    else if ca.1 = top.1 then
      (if ca.2 = top.2 then .ok (top :: rest) else .error (.tabError lineNo))
    else .error (.indentationError lineNo)

/-- One line of the tokenizer's indentation automaton: an equal column
requires an equal alternative column (else TabError); a larger column must
also be larger in the alternative width (else TabError) and pushes a level;
a smaller column dedents. -/
def indentStep (lineNo : Nat) (stack : List (Nat × Nat)) (line : String) :
    Except PyErr (List (Nat × Nat)) :=
  let cs := line.data
  if tokBlank cs then .ok stack
  else
    let ca := tokCols (wsPrefix cs)
    match stack with
    | [] => .ok [ca]
    | top :: _ =>
      if ca.1 = top.1 then
        (if ca.2 = top.2 then .ok stack else .error (.tabError lineNo))
      else if decide (top.1 < ca.1) then
        (if decide (ca.2 <= top.2) then .error (.tabError lineNo) else .ok (ca :: stack))
      else popIndents lineNo ca stack

/-- Run the indentation automaton line by line from the empty indentation,
reporting the first error together with its one-based line number. -/
def checkIndentLines : Nat → List (Nat × Nat) → List String → Option PyErr
  | _, _, [] => none
  | n, stack, l :: rest =>
    match indentStep n stack l with
    | .error e => some e
    | .ok stack2 => checkIndentLines (n + 1) stack2 rest

/-- Lines 1 to 18 of src/log_merge.py, byte for byte. The tokenizer processes
the file sequentially and stops at the first inconsistency, so later lines
are never reached; none of these lines continues an open bracket, so the
tokenizer's bracket suspension plays no role in this prefix, and lines 1 to
17 on their own compile cleanly, so no earlier error can preempt it. Line 17
is a lone tab (blank for the tokenizer); line 18 is a tab-indented decorator
inside the space-indented class body. -/
def logMergeSrcPrefix : List String :=
  ["import argparse", "import json", "import time",
   "from dataclasses import asdict, dataclass",
   "from datetime import datetime",
   "from pathlib import Path",
   "from shutil import rmtree",
   "from sys import exit",
   "from typing import Generator",
   "",
   "",
   "@dataclass",
   "class LogRecord:",
   "    log_level: str",
   "    timestamp: str",
   "    message: str",
   "\t",
   "\t@property"]

/-- Tokenizing src/log_merge.py: the first failure the tokenizer reports.
At line 18 the indentation is one tab — column 8 under tab stops of eight
but alternative width 1 — against the class body's four spaces — column 4,
alternative width 4: the widths disagree in direction, which is exactly
CPython's TabError. -/
def log_merge_tokenize : Option PyErr := checkIndentLines 1 [(0, 0)] logMergeSrcPrefix

/-- Importing src/log_merge.py: Python compiles the whole module before
executing any of it, and the tokenizer raises TabError at line 18, so
the module never loads and no class or def statement of it ever runs. -/
def log_merge_import : Except PyErr Unit :=
  match log_merge_tokenize with
  | some e => .error e
  | none => .ok ()

/-- The program's merge on two input files: the module is imported first —
which fails with TabError — and only a successful import would reach
`_get_output_record`. -/
def runMerge (fa fb : LogFile) : Except PyErr (List LogRecord) :=
  match log_merge_import with
  | .error e => .error e
  | .ok _ => get_output_record fa fb

/-- Draining `_get_record` on one input file at program level: import first,
then read. -/
def runGetRecord (f : LogFile) : Except PyErr (List LogRecord) :=
  match log_merge_import with
  | .error e => .error e
  | .ok _ => get_record f

/-- Record `a` of the worked example in spec section 8. -/
def recA1 : LogRecord := ⟨"INFO", "2024-01-01 00:00:01", "a"⟩

/-- Record `c` of the worked example in spec section 8. -/
def recA2 : LogRecord := ⟨"INFO", "2024-01-01 00:00:05", "c"⟩

/-- Record `b` of the worked example in spec section 8. -/
def recB1 : LogRecord := ⟨"WARN", "2024-01-01 00:00:03", "b"⟩

/-- A record whose timestamp `strptime` cannot parse. -/
def recBad : LogRecord := ⟨"ERROR", "not-a-timestamp", "z"⟩

/-- Left record of a timestamp tie. -/
def recTieA : LogRecord := ⟨"INFO", "2024-01-01 00:00:01", "A"⟩

/-- Right record of a timestamp tie, same timestamp as `recTieA`. -/
def recTieB : LogRecord := ⟨"WARN", "2024-01-01 00:00:01", "B"⟩

/-- An existing regular file with the expected `.jsonl` suffix. -/
def goodPathA : PathInfo := ⟨true, true, "log_a.jsonl"⟩

/-- An existing regular file with a wrong suffix. -/
def badExtPath : PathInfo := ⟨true, true, "log_b.txt"⟩

/-- A path that does not exist. -/
def missingPath : PathInfo := ⟨false, true, "log_a.jsonl"⟩

/-- A well-formed line whose timestamp `strptime` cannot parse. -/
def badTsLine : Line :=
  Line.obj [("log_level", "INFO"), ("timestamp", "not-a-timestamp"), ("message", "x")]

/-- A fully well-formed line. -/
def lineB1 : Line :=
  Line.obj [("log_level", "WARN"), ("timestamp", "2024-01-01 00:00:03"), ("message", "b")]

/-- A file at a valid path whose single line fails `json.loads`. -/
def fileA_badJson : LogFile := ⟨goodPathA, [Line.badJson]⟩

/-- A well-formed file at a path with a wrong suffix. -/
def fileB_badExt : LogFile := ⟨badExtPath, [lineB1]⟩

/-- An existing regular file path for the right input. -/
def goodPathB : PathInfo := ⟨true, true, "log_b.jsonl"⟩

/-- Line carrying the left tie record. -/
def lineTieA : Line :=
  Line.obj [("log_level", "INFO"), ("timestamp", "2024-01-01 00:00:01"), ("message", "A")]

/-- Line carrying the right tie record, with the same timestamp. -/
def lineTieB : Line :=
  Line.obj [("log_level", "WARN"), ("timestamp", "2024-01-01 00:00:01"), ("message", "B")]

/-- Left input file holding the tie record A. -/
def fileTieA : LogFile := ⟨goodPathA, [lineTieA]⟩

/-- Right input file holding the tie record B. -/
def fileTieB : LogFile := ⟨goodPathB, [lineTieB]⟩

/-- Line carrying the record of `recA1`. -/
def lineA1 : Line :=
  Line.obj [("log_level", "INFO"), ("timestamp", "2024-01-01 00:00:01"), ("message", "a")]

/-- Left input file with one record. -/
def fileA1 : LogFile := ⟨goodPathA, [lineA1]⟩

/-- Right input file whose trailing line has an unparsable timestamp. -/
def fileB_badTail : LogFile := ⟨goodPathB, [lineB1, badTsLine]⟩

/-- With both sentinels `None`, the loop condition of line 102 fails for any
fuel, so nothing more is emitted. -/
theorem mergeFuel_none_none (k : Nat) (as bs : List LogRecord) :
    mergeFuel k none as none bs = .ok [] := by cases k <;> rfl

/-- Loop exit: both sides exhausted yields no further records. -/
theorem mergeLoop_nn (as bs : List LogRecord) : mergeLoop none as none bs = .ok [] :=
  mergeFuel_none_none _ as bs

/-- One iteration with B exhausted: `a < None` is `True` (line 24), so A's
lookahead is emitted and A advances. -/
theorem mergeLoop_an (a : LogRecord) (as bs : List LogRecord) :
    mergeLoop (some a) as none bs = (mergeLoop as.head? as.tail none bs).map (fun o => a :: o) := by
  cases as with
  | nil =>
    have h : osize (some a) + List.length ([] : List LogRecord) + osize (none : Option LogRecord) + bs.length
        = (osize (none : Option LogRecord) + List.length ([] : List LogRecord) + osize (none : Option LogRecord) + bs.length) + 1 := by
      simp only [osize, List.length_nil]; try omega
    simp only [mergeLoop, List.head?_nil, List.tail_nil, h, mergeFuel]
  | cons x rest =>
    have h : osize (some a) + List.length (x :: rest) + osize (none : Option LogRecord) + bs.length
        = (osize (some x) + List.length rest + osize (none : Option LogRecord) + bs.length) + 1 := by
      simp only [osize, List.length_cons]; try omega
    simp only [mergeLoop, List.head?_cons, List.tail_cons, h, mergeFuel]

/-- One iteration with A exhausted: `None < b` falls back to
`__gt__(b, None) = False` (line 29), so B's lookahead is emitted and B
advances. -/
theorem mergeLoop_nb (as : List LogRecord) (b : LogRecord) (bs : List LogRecord) :
    mergeLoop none as (some b) bs = (mergeLoop none as bs.head? bs.tail).map (fun o => b :: o) := by
  cases bs with
  | nil =>
    have h : osize (none : Option LogRecord) + as.length + osize (some b) + List.length ([] : List LogRecord)
        = (osize (none : Option LogRecord) + as.length + osize (none : Option LogRecord) + List.length ([] : List LogRecord)) + 1 := by
      simp only [osize, List.length_nil]; try omega
    simp only [mergeLoop, List.head?_nil, List.tail_nil]
    rw [h]
    simp only [mergeFuel]
  | cons y ys =>
    have h : osize (none : Option LogRecord) + as.length + osize (some b) + List.length (y :: ys)
        = (osize (none : Option LogRecord) + as.length + osize (some y) + List.length ys) + 1 := by
      simp only [osize, List.length_cons]; try omega
    simp only [mergeLoop, List.head?_cons, List.tail_cons]
    rw [h]
    simp only [mergeFuel]

/-- One iteration with both lookaheads live: the comparison of line 103
parses both timestamps; A is emitted and advanced on a strict `<`, else B
is. -/
theorem mergeLoop_ab (a : LogRecord) (as : List LogRecord) (b : LogRecord) (bs : List LogRecord) :
    mergeLoop (some a) as (some b) bs =
      (match recordLt a b with
       | .error e => .error e
       | .ok true => (mergeLoop as.head? as.tail (some b) bs).map (fun o => a :: o)
       | .ok false => (mergeLoop (some a) as bs.head? bs.tail).map (fun o => b :: o)) := by
  cases hr : recordLt a b with
  | error e =>
    have h : osize (some a) + as.length + osize (some b) + bs.length
        = (as.length + 1 + bs.length) + 1 := by
      simp only [osize]; try omega
    simp only [mergeLoop, h, mergeFuel, hr]
  | ok v =>
    cases v with
    | true =>
      cases as with
      | nil =>
        have h : osize (some a) + List.length ([] : List LogRecord) + osize (some b) + bs.length
            = (osize (none : Option LogRecord) + List.length ([] : List LogRecord) + osize (some b) + bs.length) + 1 := by
          simp only [osize, List.length_nil]; try omega
        simp only [mergeLoop, List.head?_nil, List.tail_nil, h, mergeFuel, hr]
      | cons x rest =>
        have h : osize (some a) + List.length (x :: rest) + osize (some b) + bs.length
            = (osize (some x) + List.length rest + osize (some b) + bs.length) + 1 := by
          simp only [osize, List.length_cons]; try omega
        simp only [mergeLoop, List.head?_cons, List.tail_cons, h, mergeFuel, hr]
    | false =>
      cases bs with
      | nil =>
        have h : osize (some a) + as.length + osize (some b) + List.length ([] : List LogRecord)
            = (osize (some a) + as.length + osize (none : Option LogRecord) + List.length ([] : List LogRecord)) + 1 := by
          simp only [osize, List.length_nil]; try omega
        simp only [mergeLoop, List.head?_nil, List.tail_nil]
        rw [h]
        simp only [mergeFuel, hr]
      | cons y ys =>
        have h : osize (some a) + as.length + osize (some b) + List.length (y :: ys)
            = (osize (some a) + as.length + osize (some y) + List.length ys) + 1 := by
          simp only [osize, List.length_cons]; try omega
        simp only [mergeLoop, List.head?_cons, List.tail_cons]
        rw [h]
        simp only [mergeFuel, hr]

/-- Once A is exhausted the loop drains B verbatim: each remaining record is
only ever compared against the `None` sentinel, so no timestamp is parsed
and no error can arise from B's tail. -/
theorem mergeLoop_a_exhausted : ∀ (bs as : List LogRecord) (b : LogRecord),
    mergeLoop none as (some b) bs = .ok (b :: bs) := by
  intro bs
  induction bs with
  | nil =>
    intro as b
    rw [mergeLoop_nb]
    simp [mergeLoop_nn, Except.map]
  | cons y ys ih =>
    intro as b
    rw [mergeLoop_nb]
    simp only [List.head?_cons, List.tail_cons, ih]
    simp [Except.map]

/-- Once B is exhausted the loop drains A verbatim, symmetrically. -/
theorem mergeLoop_b_exhausted : ∀ (as : List LogRecord) (a : LogRecord) (bs : List LogRecord),
    mergeLoop (some a) as none bs = .ok (a :: as) := by
  intro as
  induction as with
  | nil =>
    intro a bs
    rw [mergeLoop_an]
    simp [mergeLoop_nn, Except.map]
  | cons x rest ih =>
    intro a bs
    rw [mergeLoop_an]
    simp only [List.head?_cons, List.tail_cons, ih]
    simp [Except.map]

/-- A successful merge from a state with both lookaheads live emits a
permutation of everything still pending on both sides. -/
theorem mergeLoop_perm_aux : ∀ (n : Nat) (a : LogRecord) (as : List LogRecord) (b : LogRecord)
    (bs : List LogRecord) (out : List LogRecord),
    as.length + bs.length ≤ n →
    mergeLoop (some a) as (some b) bs = .ok out →
    out.Perm ((a :: as) ++ (b :: bs)) := by
  intro n
  induction n using Nat.strong_induction_on with
  | _ n ih =>
    intro a as b bs out hle hm
    rw [mergeLoop_ab] at hm
    cases hr : recordLt a b with
    | error e => rw [hr] at hm; cases hm
    | ok v =>
      rw [hr] at hm
      cases v with
      | true =>
        cases as with
        | nil =>
          rw [List.head?_nil, List.tail_nil, mergeLoop_a_exhausted] at hm
          simp only [Except.map] at hm
          cases hm
          exact List.Perm.refl _
        | cons x rest =>
          rw [List.head?_cons, List.tail_cons] at hm
          cases hrec : mergeLoop (some x) rest (some b) bs with
          | error e => rw [hrec] at hm; cases hm
          | ok out' =>
            rw [hrec] at hm
            simp only [Except.map] at hm
            cases hm
            have hp := ih (rest.length + bs.length) (by simp at hle; omega) x rest b bs out'
              (Nat.le_refl _) hrec
            exact List.Perm.cons a hp
      | false =>
        cases bs with
        | nil =>
          rw [List.head?_nil, List.tail_nil, mergeLoop_b_exhausted] at hm
          simp only [Except.map] at hm
          cases hm
          exact (List.perm_append_singleton b (a :: as)).symm
        | cons y ys =>
          rw [List.head?_cons, List.tail_cons] at hm
          cases hrec : mergeLoop (some a) as (some y) ys with
          | error e => rw [hrec] at hm; cases hm
          | ok out' =>
            rw [hrec] at hm
            simp only [Except.map] at hm
            cases hm
            have hp := ih (as.length + ys.length) (by simp at hle; omega) a as y ys out'
              (Nat.le_refl _) hrec
            exact (List.Perm.cons b hp).trans List.perm_middle.symm

/-- Introduction rule for `tsLE` from parsed timestamps. -/
theorem tsLE_intro {a b : LogRecord} {ta tb : Nat}
    (hta : parseTimestamp a.timestamp = some ta) (htb : parseTimestamp b.timestamp = some tb)
    (h : ta ≤ tb) : tsLE a b := by
  simp [tsLE, recLe, hta, htb]
  exact h

/-- Elimination rule for `tsLE`: both timestamps parse and compare. -/
theorem tsLE_elim {a b : LogRecord} (h : tsLE a b) :
    ∃ ta tb, parseTimestamp a.timestamp = some ta ∧ parseTimestamp b.timestamp = some tb ∧
      ta ≤ tb := by
  simp only [tsLE, recLe] at h
  cases hpa : parseTimestamp a.timestamp with
  | none => rw [hpa] at h; cases h
  | some ta =>
    cases hpb : parseTimestamp b.timestamp with
    | none => rw [hpa, hpb] at h; cases h
    | some tb =>
      rw [hpa, hpb] at h
      exact ⟨ta, tb, rfl, rfl, of_decide_eq_true h⟩

/-- The timestamp comparison is transitive (parsing is a function, so the
middle record's timestamp is parsed consistently). -/
theorem tsLE_trans {a b c : LogRecord} (hab : tsLE a b) (hbc : tsLE b c) : tsLE a c := by
  obtain ⟨ta, tb, hta, htb, h1⟩ := tsLE_elim hab
  obtain ⟨tb', tc, htb', htc, h2⟩ := tsLE_elim hbc
  rw [htb] at htb'
  exact tsLE_intro hta htc (Nat.le_trans h1 (Option.some.inj htb' ▸ h2))

/-- Adjacent-pair sortedness coincides with pairwise sortedness for the
transitive `tsLE`. -/
theorem chain_tsLE_iff_pairwise {l : List LogRecord} : l.Chain' tsLE ↔ l.Pairwise tsLE :=
  @List.chain'_iff_pairwise LogRecord tsLE ⟨fun _ _ _ => tsLE_trans⟩ l

/-- A successful merge of two sorted, fully parseable sides is pairwise
sorted: the classic two-pointer invariant, by strong induction on the
number of pending records. -/
theorem mergeLoop_sorted_aux : ∀ (n : Nat) (a : LogRecord) (as : List LogRecord) (b : LogRecord)
    (bs : List LogRecord) (out : List LogRecord),
    as.length + bs.length ≤ n →
    allParse (a :: as) → allParse (b :: bs) →
    (a :: as).Pairwise tsLE → (b :: bs).Pairwise tsLE →
    mergeLoop (some a) as (some b) bs = .ok out →
    out.Pairwise tsLE := by
  intro n
  induction n using Nat.strong_induction_on with
  | _ n ih =>
    intro a as b bs out hle hpa hpb hsa hsb hm
    obtain ⟨ta, hta⟩ := Option.isSome_iff_exists.mp (hpa a (List.mem_cons_self a as))
    obtain ⟨tb, htb⟩ := Option.isSome_iff_exists.mp (hpb b (List.mem_cons_self b bs))
    have hr : recordLt a b = .ok (decide (ta < tb)) := by simp [recordLt, hta, htb]
    rw [mergeLoop_ab, hr] at hm
    have hsa' := List.pairwise_cons.mp hsa
    have hsb' := List.pairwise_cons.mp hsb
    by_cases hlt : ta < tb
    · rw [decide_eq_true hlt] at hm
      cases as with
      | nil =>
        rw [List.head?_nil, List.tail_nil, mergeLoop_a_exhausted] at hm
        simp only [Except.map] at hm
        cases hm
        refine List.pairwise_cons.mpr ⟨?_, hsb⟩
        intro y hy
        rcases List.mem_cons.mp hy with h | h
        · exact h ▸ tsLE_intro hta htb (Nat.le_of_lt hlt)
        · exact tsLE_trans (tsLE_intro hta htb (Nat.le_of_lt hlt)) (hsb'.1 y h)
      | cons x rest =>
        rw [List.head?_cons, List.tail_cons] at hm
        cases hrec : mergeLoop (some x) rest (some b) bs with
        | error e => rw [hrec] at hm; cases hm
        | ok out' =>
          rw [hrec] at hm
          simp only [Except.map] at hm
          cases hm
          have hout' : out'.Pairwise tsLE := by
            refine ih (rest.length + bs.length) (by simp at hle; omega) x rest b bs out'
              (Nat.le_refl _) ?_ hpb ?_ hsb hrec
            · intro r hrr
              exact hpa r (List.mem_cons_of_mem a hrr)
            · exact hsa.sublist (List.sublist_cons_self a (x :: rest))
          refine List.pairwise_cons.mpr ⟨?_, hout'⟩
          intro y hy
          have hmem := (mergeLoop_perm_aux (rest.length + bs.length) x rest b bs out'
            (Nat.le_refl _) hrec).subset hy
          rcases List.mem_append.mp hmem with h | h
          · exact hsa'.1 y h
          · rcases List.mem_cons.mp h with h2 | h2
            · exact h2 ▸ tsLE_intro hta htb (Nat.le_of_lt hlt)
            · exact tsLE_trans (tsLE_intro hta htb (Nat.le_of_lt hlt)) (hsb'.1 y h2)
    · rw [decide_eq_false hlt] at hm
      have hba : tsLE b a := tsLE_intro htb hta (Nat.le_of_not_lt hlt)
      cases bs with
      | nil =>
        rw [List.head?_nil, List.tail_nil, mergeLoop_b_exhausted] at hm
        simp only [Except.map] at hm
        cases hm
        refine List.pairwise_cons.mpr ⟨?_, hsa⟩
        intro y hy
        rcases List.mem_cons.mp hy with h | h
        · exact h ▸ hba
        · exact tsLE_trans hba (hsa'.1 y h)
      | cons y0 ys =>
        rw [List.head?_cons, List.tail_cons] at hm
        cases hrec : mergeLoop (some a) as (some y0) ys with
        | error e => rw [hrec] at hm; cases hm
        | ok out' =>
          rw [hrec] at hm
          simp only [Except.map] at hm
          cases hm
          have hout' : out'.Pairwise tsLE := by
            refine ih (as.length + ys.length) (by simp at hle; omega) a as y0 ys out'
              (Nat.le_refl _) hpa ?_ hsa ?_ hrec
            · intro r hrr
              exact hpb r (List.mem_cons_of_mem b hrr)
            · exact hsb.sublist (List.sublist_cons_self b (y0 :: ys))
          refine List.pairwise_cons.mpr ⟨?_, hout'⟩
          intro y hy
          have hmem := (mergeLoop_perm_aux (as.length + ys.length) a as y0 ys out'
            (Nat.le_refl _) hrec).subset hy
          rcases List.mem_append.mp hmem with h | h
          · rcases List.mem_cons.mp h with h2 | h2
            · exact h2 ▸ hba
            · exact tsLE_trans hba (hsa'.1 y h2)
          · exact hsb'.1 y h

/-- Compiling src/log_merge.py fails: the tokenizer raises TabError at
line 18, so the import never succeeds and no statement of the module
executes. -/
theorem log_merge_import_fails : log_merge_import = .error (.tabError 18) := rfl

/-- Spot checks of `parseTimestamp` against `datetime.strptime`: the `\s+`
separator admits a tab and repeated spaces; the year's `\d` atoms admit
Unicode digits, while the month's classes are ASCII, so an all-Arabic-Indic
timestamp is rejected just as `strptime` rejects it; the leap second 60
matches the `%S` regex but fails the `datetime` constructor; single-digit
fields parse. -/
theorem parseTimestamp_spot_checks :
    parseTimestamp "2024-01-01 00:00:01" = some 67154313601 ∧
    parseTimestamp "2024-01-01\t00:00:01" = some 67154313601 ∧
    parseTimestamp "2024-01-01  00:00:01" = some 67154313601 ∧
    parseTimestamp "٢٠٢٤-01-01 00:00:01" = some 67154313601 ∧
    parseTimestamp "٢٠٢٤-٠١-٠١ ٠٠:٠٠:٠١" = none ∧
    parseTimestamp "2024-01-01 00:00:60" = none ∧
    parseTimestamp "2024-1-2 3:4:5" = some 67154411045 ∧
    parseTimestamp "not-a-timestamp" = none :=
  ⟨rfl, rfl, rfl, rfl, rfl, rfl, rfl, rfl⟩

/-- Claim C1 (code bug): the claim states the intended sortedness — sorted
inputs give output sorted non-decreasing by parsed timestamp — but the
program never produces any output: importing src/log_merge.py aborts with
TabError at line 18, before `_get_output_record` exists. Had the module
compiled, the merge as written would satisfy the claim: for fully parseable,
individually sorted record sequences, every successful run of the loop
yields adjacent pairs in non-decreasing parsed-timestamp order. -/
theorem C1_tab_abort_yet_sorted :
    log_merge_import = .error (.tabError 18) ∧
    (∀ la lb out : List LogRecord, allParse la → allParse lb →
      la.Chain' tsLE → lb.Chain' tsLE → getOutputRecords la lb = .ok out →
      out.Chain' tsLE) := by
  refine ⟨log_merge_import_fails, ?_⟩
  intro la lb out hpa hpb hsa hsb hm
  cases la with
  | nil => simp [getOutputRecords] at hm
  | cons a as =>
    cases lb with
    | nil => simp [getOutputRecords] at hm
    | cons b bs =>
      have hp : out.Pairwise tsLE :=
        mergeLoop_sorted_aux (as.length + bs.length) a as b bs out (Nat.le_refl _) hpa hpb
          (chain_tsLE_iff_pairwise.mp hsa) (chain_tsLE_iff_pairwise.mp hsb) hm
      exact hp.chain'

/-- Witness for C1 on the worked example of spec section 8. -/
theorem C1_tab_abort_yet_sorted_witness :
    log_merge_import = .error (.tabError 18) ∧ List.Chain' tsLE [recA1, recB1, recA2] :=
  ⟨C1_tab_abort_yet_sorted.1,
   C1_tab_abort_yet_sorted.2 [recA1, recA2] [recB1] [recA1, recB1, recA2] (by decide)
     (by decide) (List.Chain.cons (by decide) List.Chain.nil) List.Chain.nil rfl⟩

/-- Claim C2 (code bug): the claim states the intended completeness, but the
program yields no output at all — the import aborts with TabError at
line 18. Had the module compiled, the merge as written would satisfy it:
every successful output is a permutation of the two inputs taken together
(multiset equality over whole records, hence over all three fields, each
input record appearing exactly once), with length the sum of the input
lengths. -/
theorem C2_tab_abort_yet_complete :
    log_merge_import = .error (.tabError 18) ∧
    (∀ la lb out : List LogRecord, getOutputRecords la lb = .ok out →
      out.Perm (la ++ lb) ∧ out.length = la.length + lb.length) := by
  refine ⟨log_merge_import_fails, ?_⟩
  intro la lb out hm
  cases la with
  | nil => simp [getOutputRecords] at hm
  | cons a as =>
    cases lb with
    | nil => simp [getOutputRecords] at hm
    | cons b bs =>
      have hp := mergeLoop_perm_aux (as.length + bs.length) a as b bs out (Nat.le_refl _) hm
      refine ⟨hp, ?_⟩
      rw [hp.length_eq]
      simp
      omega

/-- Witness for C2 on the worked example of spec section 8. -/
theorem C2_tab_abort_yet_complete_witness :
    log_merge_import = .error (.tabError 18) ∧
    (List.Perm [recA1, recB1, recA2] ([recA1, recA2] ++ [recB1]) ∧
      ([recA1, recB1, recA2] : List LogRecord).length = [recA1, recA2].length + [recB1].length) :=
  ⟨C2_tab_abort_yet_complete.1,
   C2_tab_abort_yet_complete.2 [recA1, recA2] [recB1] [recA1, recB1, recA2] rfl⟩

/-- Claim C3 (code bug): the claim — an empty side degenerates to a
pass-through, and two empty sides give an empty output without error — is
the evident intent, but the code delivers neither: every invocation aborts
at import with TabError at line 18, and even the statements as written
would not pass through, because the initial `next` calls of lines 99-100
sit outside any `try`, so an empty sequence would raise `StopIteration`,
surfaced by PEP 479 as `RuntimeError`. -/
theorem C3_tab_abort_and_empty_side :
    log_merge_import = .error (.tabError 18) ∧
    (∀ lb : List LogRecord, getOutputRecords [] lb = .error .runtimeStopIteration) ∧
    (∀ la : List LogRecord, getOutputRecords la [] = .error .runtimeStopIteration) := by
  refine ⟨log_merge_import_fails, ?_, ?_⟩
  · intro lb; rfl
  · intro la; cases la <;> rfl

/-- Claim C4, counterexample: at a pair of one-record inputs with equal
parsed timestamps the program emits nothing — it aborts at import with
TabError — and even the code as written would emit the right record (B)
first, not the left one as claimed. -/
theorem C4_counterexample :
    runMerge fileTieA fileTieB = .error (.tabError 18) ∧
    get_output_record fileTieA fileTieB = .ok [recTieB, recTieA] ∧
    get_output_record fileTieA fileTieB ≠ .ok [recTieA, recTieB] := by
  refine ⟨rfl, rfl, fun h => ?_⟩
  have hlist : ([recTieB, recTieA] : List LogRecord) = [recTieA, recTieB] :=
    Except.ok.inj
      ((rfl : get_output_record fileTieA fileTieB = .ok [recTieB, recTieA]).symm.trans h)
  simp [recTieA, recTieB] at hlist

/-- Claim C4 as amended: the program emits nothing on any input — every run
aborts at import with TabError at line 18 — and in the merge code as
written, at any step whose two lookahead records have equal parsed
timestamps, the right sequence's record (B) would be emitted first and B
advanced, because the comparison of line 103 is false on a tie. -/
theorem C4_amended_tie_goes_right :
    (∀ fa fb : LogFile, runMerge fa fb = .error (.tabError 18)) ∧
    (∀ (a : LogRecord) (as : List LogRecord) (b : LogRecord) (bs : List LogRecord)
      (ta tb : Nat),
      parseTimestamp a.timestamp = some ta → parseTimestamp b.timestamp = some tb → ta = tb →
      mergeLoop (some a) as (some b) bs =
        (mergeLoop (some a) as bs.head? bs.tail).map (fun o => b :: o)) := by
  refine ⟨fun fa fb => rfl, ?_⟩
  intro a as b bs ta tb hta htb heq
  rw [mergeLoop_ab]
  have hr : recordLt a b = .ok false := by
    simp only [recordLt, hta, htb, heq]
    simp [Nat.lt_irrefl]
  rw [hr]

/-- Witness for the amended C4 at a concrete tie. -/
theorem C4_amended_witness :
    runMerge fileTieA fileTieB = .error (.tabError 18) ∧
    mergeLoop (some recTieA) [] (some recTieB) [] =
      (mergeLoop (some recTieA) [] ([] : List LogRecord).head? ([] : List LogRecord).tail).map
        (fun o => recTieB :: o) :=
  ⟨C4_amended_tie_goes_right.1 fileTieA fileTieB,
   C4_amended_tie_goes_right.2 recTieA [] recTieB [] _ _ rfl rfl rfl⟩

/-- Claim C5 (code bug): the claim describes the intended loop steps, and
the loop as written matches them exactly — with both lookaheads live it
emits A and advances A exactly when A's parsed timestamp is strictly
earlier, otherwise emits B and advances B; with one side exhausted it emits
the live lookahead and advances that side — but no step ever executes,
because the import aborts with TabError at line 18. -/
theorem C5_tab_abort_yet_step_cases :
    log_merge_import = .error (.tabError 18) ∧
    (∀ (a : LogRecord) (as : List LogRecord) (b : LogRecord) (bs : List LogRecord)
      (ta tb : Nat),
      parseTimestamp a.timestamp = some ta → parseTimestamp b.timestamp = some tb → ta < tb →
      mergeLoop (some a) as (some b) bs =
        (mergeLoop as.head? as.tail (some b) bs).map (fun o => a :: o)) ∧
    (∀ (a : LogRecord) (as : List LogRecord) (b : LogRecord) (bs : List LogRecord)
      (ta tb : Nat),
      parseTimestamp a.timestamp = some ta → parseTimestamp b.timestamp = some tb → ¬ ta < tb →
      mergeLoop (some a) as (some b) bs =
        (mergeLoop (some a) as bs.head? bs.tail).map (fun o => b :: o)) ∧
    (∀ (a : LogRecord) (as bs : List LogRecord),
      mergeLoop (some a) as none bs =
        (mergeLoop as.head? as.tail none bs).map (fun o => a :: o)) ∧
    (∀ (as : List LogRecord) (b : LogRecord) (bs : List LogRecord),
      mergeLoop none as (some b) bs =
        (mergeLoop none as bs.head? bs.tail).map (fun o => b :: o)) := by
  refine ⟨log_merge_import_fails, ?_, ?_, mergeLoop_an, mergeLoop_nb⟩
  · intro a as b bs ta tb hta htb hlt
    rw [mergeLoop_ab]
    have hr : recordLt a b = .ok true := by simp [recordLt, hta, htb, hlt]
    rw [hr]
  · intro a as b bs ta tb hta htb hlt
    rw [mergeLoop_ab]
    have hr : recordLt a b = .ok false := by simp [recordLt, hta, htb, hlt]
    rw [hr]

/-- Witness for C5: one concrete instance of each of the four step shapes. -/
theorem C5_tab_abort_yet_step_cases_witness :
    log_merge_import = .error (.tabError 18) ∧
    (mergeLoop (some recA1) [] (some recB1) [] =
      (mergeLoop ([] : List LogRecord).head? ([] : List LogRecord).tail (some recB1) []).map
        (fun o => recA1 :: o)) ∧
    (mergeLoop (some recA2) [] (some recB1) [] =
      (mergeLoop (some recA2) [] ([] : List LogRecord).head? ([] : List LogRecord).tail).map
        (fun o => recB1 :: o)) ∧
    (mergeLoop (some recA1) [recA2] none [] =
      (mergeLoop ([recA2] : List LogRecord).head? ([recA2] : List LogRecord).tail none []).map
        (fun o => recA1 :: o)) ∧
    (mergeLoop none [] (some recB1) [recBad] =
      (mergeLoop none [] ([recBad] : List LogRecord).head? ([recBad] : List LogRecord).tail).map
        (fun o => recB1 :: o)) :=
  ⟨C5_tab_abort_yet_step_cases.1,
   C5_tab_abort_yet_step_cases.2.1 recA1 [] recB1 [] _ _ rfl rfl (by decide),
   C5_tab_abort_yet_step_cases.2.2.1 recA2 [] recB1 [] _ _ rfl rfl (by decide),
   C5_tab_abort_yet_step_cases.2.2.2.1 recA1 [recA2] [],
   C5_tab_abort_yet_step_cases.2.2.2.2 [] recB1 [recBad]⟩

/-- Claim C6, counterexample: reading a file whose only line carries an
unparsable timestamp does not fail with any malformed-record error naming a
data line — the program fails at import with TabError, naming source
line 18 — and even the reading code as written would yield the record
without any error, because timestamps are never parsed during reading. -/
theorem C6_counterexample :
    parseTimestamp "not-a-timestamp" = none ∧
    runGetRecord ⟨goodPathA, [badTsLine]⟩ = .error (.tabError 18) ∧
    get_record ⟨goodPathA, [badTsLine]⟩ = .ok [⟨"INFO", "not-a-timestamp", "x"⟩] :=
  ⟨rfl, rfl, rfl⟩

/-- Claim C6 as amended: every use of the program fails at import with
TabError at line 18; the code defines no MalformedRecordError class, and as
written — had the module compiled — a line that fails `json.loads` would
abort reading with `json.JSONDecodeError`, a line missing a required field
with `TypeError` (neither carrying the data file's line number), while a
structurally valid line with an unparsable timestamp would be read
successfully, its `ValueError` arising only when the timestamp is parsed
inside a live-versus-live comparison of the merge loop. -/
theorem C6_amended :
    log_merge_import = .error (.tabError 18) ∧
    (∀ (info : PathInfo) (rest : List Line), check_path_to_log info = .ok true →
      get_record ⟨info, Line.badJson :: rest⟩ = .error .jsonDecodeError) ∧
    (∀ (info : PathInfo) (rest : List Line) (ll m : String),
      check_path_to_log info = .ok true →
      get_record ⟨info, Line.obj [("log_level", ll), ("message", m)] :: rest⟩ =
        .error .typeError) ∧
    (∀ ll ts m : String,
      parseLine (Line.obj [("log_level", ll), ("timestamp", ts), ("message", m)]) =
        .ok ⟨ll, ts, m⟩) ∧
    (∀ (a : LogRecord) (as : List LogRecord) (b : LogRecord) (bs : List LogRecord),
      parseTimestamp a.timestamp = none →
      mergeLoop (some a) as (some b) bs = .error (.valueError strptimeMsg)) := by
  refine ⟨log_merge_import_fails, ?_, ?_, ?_, ?_⟩
  · intro info rest h
    simp [get_record, h, readAllLines, parseLine]
  · intro info rest ll m h
    simp only [get_record, h]
    rfl
  · intro ll ts m
    rfl
  · intro a as b bs h
    rw [mergeLoop_ab]
    have hr : recordLt a b = .error (.valueError strptimeMsg) := by simp [recordLt, h]
    rw [hr]

/-- Witness for the amended C6 at concrete files and records. -/
theorem C6_amended_witness :
    log_merge_import = .error (.tabError 18) ∧
    (get_record ⟨goodPathA, [Line.badJson]⟩ = .error .jsonDecodeError) ∧
    (get_record ⟨goodPathA, [Line.obj [("log_level", "INFO"), ("message", "x")]]⟩ =
      .error .typeError) ∧
    (parseLine (Line.obj [("log_level", "INFO"), ("timestamp", "2024-01-01 00:00:01"),
      ("message", "a")]) = .ok ⟨"INFO", "2024-01-01 00:00:01", "a"⟩) ∧
    (mergeLoop (some recBad) [] (some recB1) [] = .error (.valueError strptimeMsg)) :=
  ⟨C6_amended.1,
   C6_amended.2.1 goodPathA [] rfl,
   C6_amended.2.2.1 goodPathA [] "INFO" "x" rfl,
   C6_amended.2.2.2.1 "INFO" "2024-01-01 00:00:01" "a",
   C6_amended.2.2.2.2 recBad [] recB1 [] rfl⟩

/-- Claim C7, counterexample: with B's path carrying a wrong extension — so
its validation would fail — and A's first line malformed, the program does
not fail with any input-validation error, and validates nothing before
reading: it aborts at import with TabError; and even the code as written
would fail with A's `json.JSONDecodeError`, A having been read before B's
path was ever validated. -/
theorem C7_counterexample :
    check_path_to_log fileB_badExt.info = .error (.valueError "Log file type is incorrect.") ∧
    runMerge fileA_badJson fileB_badExt = .error (.tabError 18) ∧
    get_output_record fileA_badJson fileB_badExt = .error .jsonDecodeError :=
  ⟨rfl, rfl, rfl⟩

/-- Claim C7 as amended: the program validates no input — every run aborts
at import with TabError at line 18 — and the code defines no
InvalidInputError; as written, had the module compiled, a missing or
non-regular path would raise the builtin `FileNotFoundError` and a suffix
whose lowercase form is not `.jsonl` a `ValueError`, each raised lazily when
its generator is first advanced: A's validation before any reading of A, but
B's only after A's first record has been read. -/
theorem C7_amended :
    log_merge_import = .error (.tabError 18) ∧
    (∀ p : PathInfo, ¬(p.path_exists = true ∧ p.is_file = true) →
      check_path_to_log p = .error (.fileNotFound "Wrong file path.")) ∧
    (∀ p : PathInfo, p.path_exists = true → p.is_file = true →
      lowerStr (pysuffix p.name) ≠ ".jsonl" →
      check_path_to_log p = .error (.valueError "Log file type is incorrect.")) ∧
    (∀ (fa fb : LogFile) (e : PyErr), check_path_to_log fa.info = .error e →
      get_output_record fa fb = .error e) ∧
    (∀ (fa fb : LogFile) (l : Line) (rest : List Line) (a : LogRecord) (e : PyErr),
      fa.content = l :: rest → parseLine l = .ok a →
      check_path_to_log fb.info = .error e →
      check_path_to_log fa.info = .ok true →
      get_output_record fa fb = .error e) := by
  refine ⟨log_merge_import_fails, ?_, ?_, ?_, ?_⟩
  · intro p h
    have hb : (p.path_exists && p.is_file) = false := by
      cases hx : p.path_exists <;> cases hy : p.is_file <;> simp_all
    simp [check_path_to_log, hb]
  · intro p h1 h2 h3
    simp [check_path_to_log, h1, h2, h3]
  · intro fa fb e h
    simp [get_output_record, h]
  · intro fa fb l rest a e hc hp hb ha
    simp [get_output_record, ha, hc, hp, hb]

/-- Witness for the amended C7 at concrete paths and files. -/
theorem C7_amended_witness :
    log_merge_import = .error (.tabError 18) ∧
    check_path_to_log missingPath = .error (.fileNotFound "Wrong file path.") ∧
    check_path_to_log badExtPath = .error (.valueError "Log file type is incorrect.") ∧
    get_output_record ⟨missingPath, [lineB1]⟩ fileB_badExt =
      .error (.fileNotFound "Wrong file path.") ∧
    get_output_record ⟨goodPathA, [lineB1]⟩ fileB_badExt =
      .error (.valueError "Log file type is incorrect.") :=
  ⟨C7_amended.1,
   C7_amended.2.1 missingPath (by decide),
   C7_amended.2.2.1 badExtPath rfl rfl (by decide),
   C7_amended.2.2.2.1 ⟨missingPath, [lineB1]⟩ fileB_badExt _ rfl,
   C7_amended.2.2.2.2 ⟨goodPathA, [lineB1]⟩ fileB_badExt lineB1 []
     ⟨"WARN", "2024-01-01 00:00:03", "b"⟩ _ rfl rfl rfl rfl⟩

/-- Claim C8 (code bug): the claim states the intended finiteness and
termination, but no merge loop ever runs — the import aborts with TabError
at line 18 — and so nothing is ever emitted. Had the module compiled, the
loop as written would satisfy the claim: it emits nothing more once both
sides are exhausted, and a successful run emits exactly one record per
input record, hence finitely many. -/
theorem C8_tab_abort_yet_finite :
    log_merge_import = .error (.tabError 18) ∧
    (∀ as bs : List LogRecord, mergeLoop none as none bs = .ok []) ∧
    (∀ la lb out : List LogRecord, getOutputRecords la lb = .ok out →
      out.length = la.length + lb.length) := by
  refine ⟨log_merge_import_fails, mergeLoop_nn, ?_⟩
  intro la lb out hm
  cases la with
  | nil => simp [getOutputRecords] at hm
  | cons a as =>
    cases lb with
    | nil => simp [getOutputRecords] at hm
    | cons b bs =>
      have hp := mergeLoop_perm_aux (as.length + bs.length) a as b bs out (Nat.le_refl _) hm
      rw [hp.length_eq]
      simp
      omega

/-- Witness for C8 on the worked example of spec section 8. -/
theorem C8_tab_abort_yet_finite_witness :
    log_merge_import = .error (.tabError 18) ∧
    (mergeLoop none [] none ([] : List LogRecord) = .ok []) ∧
    ([recA1, recB1, recA2] : List LogRecord).length = [recA1, recA2].length + [recB1].length :=
  ⟨C8_tab_abort_yet_finite.1,
   C8_tab_abort_yet_finite.2.1 [] [],
   C8_tab_abort_yet_finite.2.2 [recA1, recA2] [recB1] [recA1, recB1, recA2] rfl⟩

/-- Claim C9 (code bug): the claim states determinism of the merge across
runs, but `_get_output_record` never executes — every run aborts at import
with TabError at line 18 — so no run ever yields an output sequence. Had
the module compiled, the merge as written would be deterministic (a pure
function of its inputs) with the tie order pinned: equal parsed timestamps
always emit the right record (B) first. -/
theorem C9_tab_abort_yet_deterministic :
    log_merge_import = .error (.tabError 18) ∧
    (∀ la lb out1 out2 : List LogRecord, getOutputRecords la lb = .ok out1 →
      getOutputRecords la lb = .ok out2 → out1 = out2) ∧
    (∀ (a b : LogRecord) (ta tb : Nat), parseTimestamp a.timestamp = some ta →
      parseTimestamp b.timestamp = some tb → ta = tb →
      getOutputRecords [a] [b] = .ok [b, a]) := by
  refine ⟨log_merge_import_fails, ?_, ?_⟩
  · intro la lb out1 out2 h1 h2
    rw [h1] at h2
    exact Except.ok.inj h2
  · intro a b ta tb hta htb heq
    show mergeLoop (some a) [] (some b) [] = .ok [b, a]
    rw [mergeLoop_ab]
    have hr : recordLt a b = .ok false := by
      simp only [recordLt, hta, htb, heq]
      simp [Nat.lt_irrefl]
    rw [hr, List.head?_nil, List.tail_nil, mergeLoop_b_exhausted]
    rfl

/-- Witness for C9 at concrete runs, including a concrete tie. -/
theorem C9_tab_abort_yet_deterministic_witness :
    log_merge_import = .error (.tabError 18) ∧
    ([recA1, recB1, recA2] : List LogRecord) = [recA1, recB1, recA2] ∧
    getOutputRecords [recTieA] [recTieB] = .ok [recTieB, recTieA] :=
  ⟨C9_tab_abort_yet_deterministic.1,
   C9_tab_abort_yet_deterministic.2.1 [recA1, recA2] [recB1] [recA1, recB1, recA2]
     [recA1, recB1, recA2] rfl rfl,
   C9_tab_abort_yet_deterministic.2.2 recTieA recTieB _ _ rfl rfl rfl⟩

/-- Claim C10, counterexample: at inputs whose trailing right-side record
has an unparsable timestamp, nothing is "emitted rather than raising an
error" — the program raises TabError at import and emits nothing — although
the code as written would indeed emit the record unparsed. -/
theorem C10_counterexample :
    parseTimestamp "not-a-timestamp" = none ∧
    runMerge fileA1 fileB_badTail = .error (.tabError 18) ∧
    get_output_record fileA1 fileB_badTail =
      .ok [⟨"INFO", "2024-01-01 00:00:01", "a"⟩, ⟨"WARN", "2024-01-01 00:00:03", "b"⟩,
        ⟨"INFO", "not-a-timestamp", "x"⟩] :=
  ⟨rfl, rfl, rfl⟩

/-- Claim C10 as amended: the program emits nothing on any input — every
run aborts at import with TabError at line 18 — and in the code as written,
had the module compiled, timestamps would be parsed only inside
live-versus-live comparisons: once one side is exhausted, the other side's
remaining records — `bs` here, entirely unconstrained, so including records
whose timestamps cannot be parsed — would be emitted without any timestamp
parse and without error. -/
theorem C10_amended_lazy_tail :
    log_merge_import = .error (.tabError 18) ∧
    (∀ (a1 b1 : LogRecord) (bs : List LogRecord) (ta tb : Nat),
      parseTimestamp a1.timestamp = some ta → parseTimestamp b1.timestamp = some tb →
      ta < tb → getOutputRecords [a1] (b1 :: bs) = .ok (a1 :: b1 :: bs)) := by
  refine ⟨log_merge_import_fails, ?_⟩
  intro a1 b1 bs ta tb hta htb hlt
  show mergeLoop (some a1) [] (some b1) bs = _
  rw [mergeLoop_ab]
  have hr : recordLt a1 b1 = .ok true := by simp [recordLt, hta, htb, hlt]
  rw [hr, List.head?_nil, List.tail_nil, mergeLoop_a_exhausted]
  rfl

/-- Witness for the amended C10: the trailing record's timestamp is
unparsable, yet the statement-level merge emits it rather than raising. -/
theorem C10_amended_lazy_tail_witness :
    log_merge_import = .error (.tabError 18) ∧
    getOutputRecords [recA1] [recB1, recBad] = .ok [recA1, recB1, recBad] :=
  ⟨C10_amended_lazy_tail.1,
   C10_amended_lazy_tail.2 recA1 recB1 [recBad] _ _ rfl rfl (by decide)⟩

end LogMerge
